import Mathlib

/-!
Shallow embedding of the session layer of the oddity-rtsp server
(src/oddity-rtsp-server/src/session/mod.rs and session_manager.rs).

The asynchronous delivery loop of a session races "next packet from the
source delegate" against "stop signal" each iteration; we model one run of
the loop by a finite schedule of `LoopEvent`s, one per resolved iteration
of the `select!`.  Every externally observable effect of the task body
(invoking `recv_packet`, a datagram `send_to`, an interleaved `send`, the
muxer `finish` call, a message on the state channel) is recorded in a
trace of `Ev` values.  The session registry of the manager is an
association list keyed by `SessionId`, mirroring the `HashMap` guarded by
a mutex in the source.
-/

namespace Oddity

/-- Opaque resolved remote socket address (models `std::net::SocketAddr`). -/
abbrev Addr := Nat

/-- Opaque media packet yielded by the source delegate (`video::Packet`). -/
structure Packet where
  payload : Nat
deriving DecidableEq, Repr

/-- Wire-ready muxed buffer tagged by kind (`video::RtpBuf`): `rtp` is a
data buffer, `rtcp` a control buffer; the payload is opaque. -/
inductive RtpBuf where
  | rtp (buf : Nat)
  | rtcp (buf : Nat)
deriving DecidableEq, Repr

/-- Session identifier (`session::SessionId`): an opaque printable string,
compared by value. -/
structure SessionId where
  id : String
deriving DecidableEq, Repr

/-- Lifecycle event on the session state channel (`session::SessionState`);
a single variant carrying the session id. -/
inductive SessionState where
  | stopped (id : SessionId)
deriving DecidableEq, Repr

/-- Which of the two locally bound UDP sockets a datagram is sent through:
`rtpSock` is `socket_rtp`, `rtcpSock` is `socket_rtcp` in the source. -/
inductive Sock where
  | rtpSock
  | rtcpSock
deriving DecidableEq, Repr

/-- Observable effect of a session task body, in program order:
`recvCall` marks a resolved `source_delegate.recv_packet()`; `sendUdp`
records a `send_to` on a local socket to a remote address with its result;
`sendTcp` records a `target.sender.send` of an interleaved message with
its result; `finishCall` records the `rtp_muxer::finish` drain with the
buffers it produced; `stateSent` records a message on the state channel. -/
inductive Ev where
  | recvCall
  | sendUdp (sock : Sock) (addr : Addr) (buf : RtpBuf) (ok : Bool)
  | sendTcp (channel : Nat) (payload : Nat) (ok : Bool)
  | finishCall (out : List RtpBuf)
  | stateSent (st : SessionState)
deriving DecidableEq, Repr

/-- True on a state-channel event. -/
def Ev.isStateSent : Ev → Bool
  | Ev.stateSent _ => true
  | _ => false

/-- True on a muxer-finish event. -/
def Ev.isFinishCall : Ev → Bool
  | Ev.finishCall _ => true
  | _ => false

/-- True on the events the delivery loops themselves can emit. -/
def Ev.isLoopEv : Ev → Bool
  | Ev.recvCall => true
  | Ev.sendUdp _ _ _ _ => true
  | Ev.sendTcp _ _ _ => true
  | _ => false

/-- True on a send that actually reached the destination (a successful
`send_to` datagram or interleaved `send`). -/
def Ev.isDeliver : Ev → Bool
  | Ev.sendUdp _ _ _ true => true
  | Ev.sendTcp _ _ true => true
  | _ => false

/-- One resolved iteration of the `select!` race in a delivery loop:
either `recv_packet` resolved (with `none` when the source is broken, and
an oracle bit saying whether a send attempted this iteration succeeds),
or the stop signal resolved. -/
inductive LoopEvent where
  | packet (p : Option Packet) (sendOk : Bool)
  | stop
deriving DecidableEq, Repr

/-- UDP destination of a session (`setup::SendOverSocket`): the two
resolved remote addresses, one for RTP data and one for RTCP control. -/
structure SendOverSocket where
  rtp_remote : Addr
  rtcp_remote : Addr
deriving DecidableEq, Repr

/-- TCP interleaved destination (`setup::SendInterleaved`): the two
channel identifiers on the shared control connection.  The sender handle
itself is modelled by the send-result oracle on the schedule. -/
structure SendInterleaved where
  rtp_channel : Nat
  rtcp_channel : Nat
deriving DecidableEq, Repr

instance (a b : Except Unit Unit) : Decidable (a = b) :=
  match a, b with
  | Except.ok (), Except.ok () => isTrue rfl
  | Except.ok (), Except.error () => isFalse (by simp)
  | Except.error (), Except.ok () => isFalse (by simp)
  | Except.error (), Except.error () => isTrue rfl

/-- Outcomes of the two `net::UdpSocket::bind("0.0.0.0:0")` calls made at
the top of `Session::run_udp`, in order. -/
structure UdpBindEnv where
  bind_rtp : Except Unit Unit
  bind_rtcp : Except Unit Unit
deriving DecidableEq, Repr

/-- The muxer handed to the session (`video::RtpMuxer`): an internal state,
the stateful fallible `mux` step, and the `finish` drain producing trailing
buffers.  `mux` always returns the successor state (the Rust method takes
`&mut self` whether or not it errors). -/
structure RtpMuxer where
  st : Nat
  muxFn : Nat → Packet → Nat × Except Unit RtpBuf
  finishFn : Nat → List RtpBuf

/-- Transport target chosen at setup (`setup::SessionSetupTarget`). -/
inductive SessionSetupTarget where
  | rtpUdp (target : SendOverSocket)
  | rtpTcp (target : SendInterleaved)

/-- The bundle handed to `Session::run` (`setup::SessionSetup`). -/
structure SessionSetup where
  rtp_muxer : RtpMuxer
  rtp_target : SessionSetupTarget

/-- The packet-relay loop of `Session::run_udp` (the `loop { select! ... } }`
body, after both sockets are bound).  Returns the trace of observable
effects, the final muxer state, and whether the loop exited (`false` means
the schedule ran out while the loop was still blocked on the race).
Mirrors the source: a `stop` resolution breaks; `recv_packet` returning
`None` breaks; a mux error breaks; a muxed buffer is sent through
`socket_rtp` to the remote address matching its kind, and a send error
breaks. -/
def Session.udpLoop (muxFn : Nat → Packet → Nat × Except Unit RtpBuf)
    (target : SendOverSocket) : Nat → List LoopEvent → List Ev × Nat × Bool
  | st, [] => ([], st, false)
  | st, LoopEvent.stop :: _ => ([], st, true)
  | st, LoopEvent.packet none _ :: _ => ([Ev.recvCall], st, true)
  | st, LoopEvent.packet (some p) sendOk :: rest =>
    match muxFn st p with
    | (st2, Except.error _) => ([Ev.recvCall], st2, true)
    | (st2, Except.ok buf) =>
      if sendOk then
        (Ev.recvCall ::
          Ev.sendUdp Sock.rtpSock
            (match buf with
             | RtpBuf.rtp _ => target.rtp_remote
             | RtpBuf.rtcp _ => target.rtcp_remote) buf true ::
          (Session.udpLoop muxFn target st2 rest).1,
         (Session.udpLoop muxFn target st2 rest).2.1,
         (Session.udpLoop muxFn target st2 rest).2.2)
      else
        ([Ev.recvCall,
          Ev.sendUdp Sock.rtpSock
            (match buf with
             | RtpBuf.rtp _ => target.rtp_remote
             | RtpBuf.rtcp _ => target.rtcp_remote) buf false], st2, true)

/-- Model of `Session::run_udp`: bind the RTP socket, then the RTCP socket; if
either bind fails the function logs and returns at once (the loop never
runs); otherwise run the relay loop.  An early return still counts as the
function having exited. -/
def Session.run_udp (muxFn : Nat → Packet → Nat × Except Unit RtpBuf)
    (target : SendOverSocket) (st : Nat) (env : UdpBindEnv)
    (events : List LoopEvent) : List Ev × Nat × Bool :=
  match env.bind_rtp with
  | Except.error _ => ([], st, true)
  | Except.ok _ =>
    match env.bind_rtcp with
    | Except.error _ => ([], st, true)
    | Except.ok _ => Session.udpLoop muxFn target st events

/-- The packet-relay loop of `Session::run_tcp`: as the UDP loop, but each
muxed buffer is wrapped as an interleaved message on the channel matching
its kind and handed to the connection sender; a send failure breaks. -/
def Session.tcpLoop (muxFn : Nat → Packet → Nat × Except Unit RtpBuf)
    (target : SendInterleaved) : Nat → List LoopEvent → List Ev × Nat × Bool
  | st, [] => ([], st, false)
  | st, LoopEvent.stop :: _ => ([], st, true)
  | st, LoopEvent.packet none _ :: _ => ([Ev.recvCall], st, true)
  | st, LoopEvent.packet (some p) sendOk :: rest =>
    match muxFn st p with
    | (st2, Except.error _) => ([Ev.recvCall], st2, true)
    | (st2, Except.ok buf) =>
      if sendOk then
        (Ev.recvCall ::
          Ev.sendTcp
            (match buf with
             | RtpBuf.rtp _ => target.rtp_channel
             | RtpBuf.rtcp _ => target.rtcp_channel)
            (match buf with
             | RtpBuf.rtp b => b
             | RtpBuf.rtcp b => b) true ::
          (Session.tcpLoop muxFn target st2 rest).1,
         (Session.tcpLoop muxFn target st2 rest).2.1,
         (Session.tcpLoop muxFn target st2 rest).2.2)
      else
        ([Ev.recvCall,
          Ev.sendTcp
            (match buf with
             | RtpBuf.rtp _ => target.rtp_channel
             | RtpBuf.rtcp _ => target.rtcp_channel)
            (match buf with
             | RtpBuf.rtp b => b
             | RtpBuf.rtcp b => b) false], st2, true)

/-- Model of `Session::run_tcp`: no resource acquisition phase, just the loop. -/
def Session.run_tcp (muxFn : Nat → Packet → Nat × Except Unit RtpBuf)
    (target : SendInterleaved) (st : Nat) (events : List LoopEvent) :
    List Ev × Nat × Bool :=
  Session.tcpLoop muxFn target st events

/-- The packet-relay phase of `Session::run`: the `match setup.rtp_target`
dispatch to `run_udp` or `run_tcp` at the top of the task body. -/
def Session.loopPhase (setup : SessionSetup) (env : UdpBindEnv)
    (events : List LoopEvent) : List Ev × Nat × Bool :=
  match setup.rtp_target with
  | SessionSetupTarget.rtpUdp target =>
      Session.run_udp setup.rtp_muxer.muxFn target setup.rtp_muxer.st env events
  | SessionSetupTarget.rtpTcp target =>
      Session.run_tcp setup.rtp_muxer.muxFn target setup.rtp_muxer.st events

/-- Model of `Session::run`, the whole task body: run the packet-relay phase; when
that phase has returned, call the muxer `finish` drain, discard its
output, and send `SessionState::Stopped(id)` on the state channel.  The
second component is `true` iff the task body ran to completion on the
given schedule. -/
def Session.run (id : SessionId) (setup : SessionSetup) (env : UdpBindEnv)
    (events : List LoopEvent) : List Ev × Bool :=
  let r := Session.loopPhase setup env events
  if r.2.2 then
    (r.1 ++ [Ev.finishCall (setup.rtp_muxer.finishFn r.2.1),
             Ev.stateSent (SessionState.stopped id)], true)
  else
    (r.1, false)

/-- The buffers a UDP destination actually observes in a trace: the
payloads of the successful `send_to` calls, in order. -/
def deliveredUdp (tr : List Ev) : List RtpBuf :=
  tr.filterMap fun e =>
    match e with
    | Ev.sendUdp _ _ b true => some b
    | _ => none

/-- The interleaved messages (channel, payload) a TCP destination actually
observes in a trace, in order. -/
def deliveredTcp (tr : List Ev) : List (Nat × Nat) :=
  tr.filterMap fun e =>
    match e with
    | Ev.sendTcp ch pl true => some (ch, pl)
    | _ => none

/-- The send events of a trace that actually reached the destination:
everything any destination (UDP or interleaved) observes, in order. -/
def deliveredEvents (tr : List Ev) : List Ev :=
  tr.filter Ev.isDeliver

/-- The packets the source delegate yields on a schedule, in order. -/
def arrivedPackets (events : List LoopEvent) : List Packet :=
  events.filterMap fun e =>
    match e with
    | LoopEvent.packet (some p) _ => some p
    | _ => none

/-- Reference muxing of a packet list: thread the muxer state left to
right, collecting outputs, stopping at the first mux error. -/
def muxSeq (muxFn : Nat → Packet → Nat × Except Unit RtpBuf) :
    Nat → List Packet → List RtpBuf
  | _, [] => []
  | st, p :: ps =>
    match muxFn st p with
    | (st2, Except.ok b) => b :: muxSeq muxFn st2 ps
    | (_, Except.error _) => []

/-- The remote address a buffer of each kind must be addressed to. -/
def udpAddrOf (target : SendOverSocket) : RtpBuf → Addr
  | RtpBuf.rtp _ => target.rtp_remote
  | RtpBuf.rtcp _ => target.rtcp_remote

/-- The interleaved message a buffer of each kind must become. -/
def tcpMsgOf (target : SendInterleaved) : RtpBuf → Nat × Nat
  | RtpBuf.rtp b => (target.rtp_channel, b)
  | RtpBuf.rtcp b => (target.rtcp_channel, b)

/-- Handle of a spawned cooperative task (`task_manager::Task`): `tid`
identifies the spawned worker, `exited` is whether `stop()` has been
awaited so the task has fully exited. -/
structure TaskHandle where
  tid : Nat
  exited : Bool
deriving DecidableEq, Repr

/-- A live session as stored in the registry (`session::Session`): it
owns exactly its worker task handle. -/
structure Session where
  worker : TaskHandle
deriving DecidableEq, Repr

/-- Model of `Session::teardown`: signal the owned worker to stop and await its
exit. -/
def Session.teardown (s : Session) : Session :=
  { s with worker := { s.worker with exited := true } }

/-- Registry lookup on the association list modelling the `HashMap`
(first matching key; keys are unique in any map reachable through
`SessionManager.setup_and_start`). -/
def lookupSession (m : List (SessionId × Session)) (sid : SessionId) :
    Option Session :=
  match m with
  | [] => none
  | (k, v) :: rest => if k = sid then some v else lookupSession rest sid

/-- In-place update of the entry at a key, as `HashMap::get_mut` followed
by mutation: the value at the first matching key is replaced, nothing is
inserted or removed. -/
def updateSession (m : List (SessionId × Session)) (sid : SessionId)
    (f : Session → Session) : List (SessionId × Session) :=
  match m with
  | [] => []
  | (k, v) :: rest =>
    if k = sid then (k, f v) :: rest else (k, v) :: updateSession rest sid f

/-- Model of `HashMap::remove`: drop the entry at the first matching key. -/
def removeSession (m : List (SessionId × Session)) (sid : SessionId) :
    List (SessionId × Session) :=
  match m with
  | [] => []
  | (k, v) :: rest =>
    if k = sid then rest else (k, v) :: removeSession rest sid

/-- Error returned by registration (`session_manager::RegisterSessionError`);
its only variant. -/
inductive RegisterSessionError where
  | alreadyRegistered
deriving DecidableEq, Repr

/-- The session manager (`session_manager::SessionManager`): the registry
and the background reaper worker task. -/
structure SessionManager where
  sessions : List (SessionId × Session)
  worker : TaskHandle
deriving DecidableEq, Repr

/-- Observable effect of a manager operation: stopping the reaper worker,
tearing a session down (with the session's state after its task exited),
or constructing and starting a new session task. -/
inductive MgrEv where
  | reaperStopped
  | sessionTorn (sid : SessionId) (final : Session)
  | sessionStarted (sid : SessionId)
deriving DecidableEq, Repr

/-- Model of `SessionManager::setup_and_start`: with `genId` the freshly generated
`SessionId::generate()` value and `ns` the session that
`Session::setup_and_start` would spawn, claim the registry entry at
`genId`.  If the entry is vacant, construct and start the session, store
it there and return the id; otherwise return `AlreadyRegistered` without
constructing anything.  The trace records whether a session was started. -/
def SessionManager.setup_and_start (m : SessionManager) (genId : SessionId)
    (ns : Session) :
    SessionManager × Except RegisterSessionError SessionId × List MgrEv :=
  match lookupSession m.sessions genId with
  | none =>
    ({ m with sessions := (genId, ns) :: m.sessions },
     Except.ok genId, [MgrEv.sessionStarted genId])
  | some _ =>
    (m, Except.error RegisterSessionError.alreadyRegistered, [])

/-- Model of `SessionManager::teardown`: look the session up by id; if present,
tear it down in place (`get_mut` + `teardown().await`) leaving its entry
in the registry; if absent, do nothing. -/
def SessionManager.teardown (m : SessionManager) (sid : SessionId) :
    SessionManager × List MgrEv :=
  match lookupSession m.sessions sid with
  | some s =>
    ({ m with sessions := updateSession m.sessions sid Session.teardown },
     [MgrEv.sessionTorn sid (Session.teardown s)])
  | none => (m, [])

/-- Model of `SessionManager::stop`: stop the reaper worker and await it, then
drain the registry, tearing down each remaining session sequentially. -/
def SessionManager.stop (m : SessionManager) : SessionManager × List MgrEv :=
  ({ sessions := [],
     worker := { m.worker with exited := true } },
   MgrEv.reaperStopped ::
     m.sessions.map (fun p => MgrEv.sessionTorn p.1 (Session.teardown p.2)))

/-- One step of the reaper loop in `SessionManager::run` on receiving a
state report: a `Stopped(id)` report removes `id` from the registry. -/
def SessionManager.handleSessionState (sessions : List (SessionId × Session))
    (state : SessionState) : List (SessionId × Session) :=
  match state with
  | SessionState.stopped sid => removeSession sessions sid

/-! Concrete instances used to evaluate the definitions on closed inputs. -/

/-- A concrete muxer: packet 7 fails to mux, even payloads become RTP
buffers, odd ones RTCP buffers; `finish` drains one trailing buffer. -/
def wMux : RtpMuxer :=
  { st := 0
    muxFn := fun st p =>
      if p.payload = 7 then (st + 1, Except.error ())
      else (st + 1, Except.ok
        (if p.payload % 2 = 0 then RtpBuf.rtp p.payload else RtpBuf.rtcp p.payload))
    finishFn := fun st => [RtpBuf.rtp (100 + st)] }

def wId : SessionId := { id := "sessA" }

def wIdB : SessionId := { id := "sessB" }

def wUdpTarget : SendOverSocket := { rtp_remote := 10, rtcp_remote := 20 }

def wTcpTarget : SendInterleaved := { rtp_channel := 0, rtcp_channel := 1 }

def wEnvOk : UdpBindEnv := { bind_rtp := Except.ok (), bind_rtcp := Except.ok () }

def wEnvFail : UdpBindEnv := { bind_rtp := Except.error (), bind_rtcp := Except.ok () }

/-- A schedule: two packets arrive and are sent, then the stop signal. -/
def wEvents : List LoopEvent :=
  [LoopEvent.packet (some { payload := 2 }) true,
   LoopEvent.packet (some { payload := 3 }) true,
   LoopEvent.stop]

def wSetupUdp : SessionSetup :=
  { rtp_muxer := wMux, rtp_target := SessionSetupTarget.rtpUdp wUdpTarget }

def wSetupTcp : SessionSetup :=
  { rtp_muxer := wMux, rtp_target := SessionSetupTarget.rtpTcp wTcpTarget }

/-- A concrete `finish` drain producing one trailing buffer. -/
def wFinA : Nat → List RtpBuf := fun st => [RtpBuf.rtp (100 + st)]

/-- A concrete `finish` drain producing a different, empty output. -/
def wFinB : Nat → List RtpBuf := fun _ => []

def wSess1 : Session := { worker := { tid := 1, exited := false } }

def wSess2 : Session := { worker := { tid := 2, exited := false } }

def wMgr : SessionManager :=
  { sessions := [(wId, wSess1)], worker := { tid := 0, exited := false } }

/-! Helper lemmas about the delivery loops. -/

lemma udpLoop_mem_isLoopEv (muxFn : Nat → Packet → Nat × Except Unit RtpBuf)
    (target : SendOverSocket) :
    ∀ (events : List LoopEvent) (st : Nat) (e : Ev),
      e ∈ (Session.udpLoop muxFn target st events).1 → e.isLoopEv = true := by
  intro events
  induction events with
  | nil => intro st e h; simp [Session.udpLoop] at h
  | cons ev rest ih =>
    intro st e h
    cases ev with
    | stop => simp [Session.udpLoop] at h
    | packet p sendOk =>
      cases p with
      | none =>
        simp [Session.udpLoop] at h
        subst h; rfl
      | some p =>
        rcases hm : muxFn st p with ⟨st2, res⟩
        cases res with
        | error u =>
          simp [Session.udpLoop, hm] at h
          subst h; rfl
        | ok buf =>
          cases sendOk with
          | false =>
            simp [Session.udpLoop, hm] at h
            rcases h with h | h <;> (subst h; rfl)
          | true =>
            simp [Session.udpLoop, hm] at h
            rcases h with h | h | h
            · subst h; rfl
            · subst h; rfl
            · exact ih st2 e h

lemma tcpLoop_mem_isLoopEv (muxFn : Nat → Packet → Nat × Except Unit RtpBuf)
    (target : SendInterleaved) :
    ∀ (events : List LoopEvent) (st : Nat) (e : Ev),
      e ∈ (Session.tcpLoop muxFn target st events).1 → e.isLoopEv = true := by
  intro events
  induction events with
  | nil => intro st e h; simp [Session.tcpLoop] at h
  | cons ev rest ih =>
    intro st e h
    cases ev with
    | stop => simp [Session.tcpLoop] at h
    | packet p sendOk =>
      cases p with
      | none =>
        simp [Session.tcpLoop] at h
        subst h; rfl
      | some p =>
        rcases hm : muxFn st p with ⟨st2, res⟩
        cases res with
        | error u =>
          simp [Session.tcpLoop, hm] at h
          subst h; rfl
        | ok buf =>
          cases sendOk with
          | false =>
            simp [Session.tcpLoop, hm] at h
            rcases h with h | h <;> (subst h; rfl)
          | true =>
            simp [Session.tcpLoop, hm] at h
            rcases h with h | h | h
            · subst h; rfl
            · subst h; rfl
            · exact ih st2 e h

lemma run_udp_mem_isLoopEv (muxFn : Nat → Packet → Nat × Except Unit RtpBuf)
    (target : SendOverSocket) (st : Nat) (env : UdpBindEnv)
    (events : List LoopEvent) (e : Ev)
    (h : e ∈ (Session.run_udp muxFn target st env events).1) :
    e.isLoopEv = true := by
  unfold Session.run_udp at h
  rcases h1 : env.bind_rtp with u | u <;> rw [h1] at h
  · simp at h
  · rcases h2 : env.bind_rtcp with u2 | u2 <;> rw [h2] at h
    · simp at h
    · exact udpLoop_mem_isLoopEv _ _ _ _ _ h

lemma loopPhase_mem_isLoopEv (setup : SessionSetup) (env : UdpBindEnv)
    (events : List LoopEvent) (e : Ev)
    (h : e ∈ (Session.loopPhase setup env events).1) : e.isLoopEv = true := by
  unfold Session.loopPhase at h
  rcases hs : setup.rtp_target with target | target <;> rw [hs] at h
  · exact run_udp_mem_isLoopEv _ _ _ _ _ _ h
  · unfold Session.run_tcp at h
    exact tcpLoop_mem_isLoopEv _ _ _ _ _ h

lemma isLoopEv_not_state {e : Ev} (h : e.isLoopEv = true) :
    e.isStateSent = false := by
  cases e <;> simp_all [Ev.isLoopEv, Ev.isStateSent]

lemma isLoopEv_not_finish {e : Ev} (h : e.isLoopEv = true) :
    e.isFinishCall = false := by
  cases e <;> simp_all [Ev.isLoopEv, Ev.isFinishCall]

lemma loopPhase_filter_state (setup : SessionSetup) (env : UdpBindEnv)
    (events : List LoopEvent) :
    (Session.loopPhase setup env events).1.filter Ev.isStateSent = [] := by
  apply List.filter_eq_nil_iff.mpr
  intro e he
  simp [isLoopEv_not_state (loopPhase_mem_isLoopEv setup env events e he)]

lemma loopPhase_filter_finish (setup : SessionSetup) (env : UdpBindEnv)
    (events : List LoopEvent) :
    (Session.loopPhase setup env events).1.filter Ev.isFinishCall = [] := by
  apply List.filter_eq_nil_iff.mpr
  intro e he
  simp [isLoopEv_not_finish (loopPhase_mem_isLoopEv setup env events e he)]

lemma run_udp_bind_failure_empty (muxFn : Nat → Packet → Nat × Except Unit RtpBuf)
    (target : SendOverSocket) (st : Nat) (env : UdpBindEnv)
    (events : List LoopEvent)
    (h : env.bind_rtp = Except.error () ∨ env.bind_rtcp = Except.error ()) :
    Session.run_udp muxFn target st env events = ([], st, true) := by
  unfold Session.run_udp
  rcases h1 : env.bind_rtp with u | u
  · rfl
  · rcases h2 : env.bind_rtcp with u2 | u2
    · rfl
    · exfalso
      rcases h with h | h
      · rw [h1] at h; exact absurd h (by simp)
      · rw [h2] at h; exact absurd h (by simp)

lemma run_bind_failure (id : SessionId) (muxr : RtpMuxer)
    (target : SendOverSocket) (env : UdpBindEnv) (events : List LoopEvent)
    (h : env.bind_rtp = Except.error () ∨ env.bind_rtcp = Except.error ()) :
    Session.run id ⟨muxr, SessionSetupTarget.rtpUdp target⟩ env events
      = ([Ev.finishCall (muxr.finishFn muxr.st),
          Ev.stateSent (SessionState.stopped id)], true) := by
  have hlp : Session.loopPhase ⟨muxr, SessionSetupTarget.rtpUdp target⟩ env events
      = ([], muxr.st, true) :=
    run_udp_bind_failure_empty muxr.muxFn target muxr.st env events h
  unfold Session.run
  rw [hlp]
  rfl

/-- Claim C1: for every session task, exactly one `SessionState::Stopped(id)`
report is emitted on the state channel, at the very end of the task body,
regardless of which exit path (explicit stop, source exhaustion, mux
failure, send failure, even a bind failure that skipped the loop) ended
the delivery phase; and as long as the task body has not completed, no
report has been emitted at all. -/
theorem C1_stopped_exactly_once_at_end (id : SessionId) (setup : SessionSetup)
    (env : UdpBindEnv) (events : List LoopEvent) :
    ((Session.run id setup env events).2 = true →
      (Session.run id setup env events).1.filter Ev.isStateSent
        = [Ev.stateSent (SessionState.stopped id)] ∧
      (Session.run id setup env events).1.getLast?
        = some (Ev.stateSent (SessionState.stopped id))) ∧
    ((Session.run id setup env events).2 = false →
      (Session.run id setup env events).1.filter Ev.isStateSent = []) := by
  unfold Session.run
  rcases hx : (Session.loopPhase setup env events).2.2 with _ | _
  · simp [hx, loopPhase_filter_state]
  · simp [hx, List.filter_append, loopPhase_filter_state, Ev.isStateSent]

/-- Concrete check of C1 at a completed run: two packets then a stop. -/
theorem C1_witness :
    (Session.run wId wSetupUdp wEnvOk wEvents).2 = true ∧
    (Session.run wId wSetupUdp wEnvOk wEvents).1.filter Ev.isStateSent
      = [Ev.stateSent (SessionState.stopped wId)] ∧
    (Session.run wId wSetupUdp wEnvOk wEvents).1.getLast?
      = some (Ev.stateSent (SessionState.stopped wId)) :=
  ⟨by decide,
   (C1_stopped_exactly_once_at_end wId wSetupUdp wEnvOk wEvents).1 (by decide)⟩

/-- Claim C2 counterexample: with the first UDP bind failing, the session
task body still emits a `Stopped` report on the state channel
(`Session::run` sends it after `run_udp` returns early), so the claim's
"no Stopped report is sent on the state channel" is false. -/
theorem C2_counterexample :
    wEnvFail.bind_rtp = Except.error () ∧
    (Session.run wId wSetupUdp wEnvFail []).1.filter Ev.isStateSent ≠ [] :=
  ⟨rfl, by decide⟩

/-- Claim C2 amended: if acquiring a local transport endpoint fails when a
UDP session starts, the delivery loop never runs — `recv_packet` is never
invoked and nothing is muxed or sent — but the task body still completes,
drains the muxer, and sends the single `Stopped` report for the reaper. -/
theorem C2_bind_failure_skips_loop_but_reports (id : SessionId)
    (muxr : RtpMuxer) (target : SendOverSocket) (env : UdpBindEnv)
    (events : List LoopEvent)
    (h : env.bind_rtp = Except.error () ∨ env.bind_rtcp = Except.error ()) :
    (Session.run id ⟨muxr, SessionSetupTarget.rtpUdp target⟩ env events).1
      = [Ev.finishCall (muxr.finishFn muxr.st),
         Ev.stateSent (SessionState.stopped id)] ∧
    (Session.run id ⟨muxr, SessionSetupTarget.rtpUdp target⟩ env events).2
      = true := by
  rw [run_bind_failure id muxr target env events h]
  exact ⟨rfl, rfl⟩

/-- Concrete check of the amended C2: with a failing bind, the run trace
is exactly the drain followed by the `Stopped` report. -/
theorem C2_amended_witness :
    (wEnvFail.bind_rtp = Except.error () ∨
     wEnvFail.bind_rtcp = Except.error ()) ∧
    (Session.run wId ⟨wMux, SessionSetupTarget.rtpUdp wUdpTarget⟩ wEnvFail
        wEvents).1
      = [Ev.finishCall (wMux.finishFn wMux.st),
         Ev.stateSent (SessionState.stopped wId)] :=
  ⟨Or.inl rfl,
   (C2_bind_failure_skips_loop_but_reports wId wMux wUdpTarget wEnvFail
     wEvents (Or.inl rfl)).1⟩

/-- Claim C4: for a UDP-destination session, if binding either local
socket fails, `run_udp` returns at once with an empty trace: the source
delegate's `recv_packet` is never invoked, and no packet is pulled, muxed
or sent. -/
theorem C4_bind_failure_never_recv (muxFn : Nat → Packet → Nat × Except Unit RtpBuf)
    (target : SendOverSocket) (st : Nat) (env : UdpBindEnv)
    (events : List LoopEvent)
    (h : env.bind_rtp = Except.error () ∨ env.bind_rtcp = Except.error ()) :
    (Session.run_udp muxFn target st env events).1 = [] ∧
    Ev.recvCall ∉ (Session.run_udp muxFn target st env events).1 ∧
    (Session.run_udp muxFn target st env events).2.2 = true := by
  rw [run_udp_bind_failure_empty muxFn target st env events h]
  exact ⟨rfl, by simp, rfl⟩

lemma udpLoop_delivered_ordered (muxFn : Nat → Packet → Nat × Except Unit RtpBuf)
    (target : SendOverSocket) :
    ∀ (events : List LoopEvent) (st : Nat),
      deliveredUdp (Session.udpLoop muxFn target st events).1
        <+: muxSeq muxFn st (arrivedPackets events) := by
  intro events
  induction events with
  | nil => intro st; simp [Session.udpLoop, deliveredUdp]
  | cons ev rest ih =>
    intro st
    cases ev with
    | stop => simp [Session.udpLoop, deliveredUdp, arrivedPackets]
    | packet p sendOk =>
      cases p with
      | none =>
        simp [Session.udpLoop, deliveredUdp, arrivedPackets,
          List.filterMap_cons]
      | some p =>
        rcases hm : muxFn st p with ⟨st2, res⟩
        have harr : arrivedPackets (LoopEvent.packet (some p) sendOk :: rest)
            = p :: arrivedPackets rest := by
          simp [arrivedPackets, List.filterMap_cons]
        rw [harr]
        cases res with
        | error u =>
          simp [Session.udpLoop, hm, deliveredUdp, muxSeq,
            List.filterMap_cons]
        | ok buf =>
          cases sendOk with
          | false =>
            simp [Session.udpLoop, hm, deliveredUdp, muxSeq,
              List.filterMap_cons]
          | true =>
            have hms : muxSeq muxFn st (p :: arrivedPackets rest)
                = buf :: muxSeq muxFn st2 (arrivedPackets rest) := by
              simp [muxSeq, hm]
            rw [hms]
            have hd : deliveredUdp
                (Session.udpLoop muxFn target st
                  (LoopEvent.packet (some p) true :: rest)).1
                = buf :: deliveredUdp (Session.udpLoop muxFn target st2 rest).1 := by
              simp [Session.udpLoop, hm, deliveredUdp, List.filterMap_cons]
            rw [hd]
            exact List.cons_prefix_cons.mpr ⟨rfl, ih st2⟩

lemma tcpLoop_delivered_ordered (muxFn : Nat → Packet → Nat × Except Unit RtpBuf)
    (target : SendInterleaved) :
    ∀ (events : List LoopEvent) (st : Nat),
      deliveredTcp (Session.tcpLoop muxFn target st events).1
        <+: (muxSeq muxFn st (arrivedPackets events)).map (tcpMsgOf target) := by
  intro events
  induction events with
  | nil => intro st; simp [Session.tcpLoop, deliveredTcp]
  | cons ev rest ih =>
    intro st
    cases ev with
    | stop => simp [Session.tcpLoop, deliveredTcp, arrivedPackets]
    | packet p sendOk =>
      cases p with
      | none =>
        simp [Session.tcpLoop, deliveredTcp, arrivedPackets,
          List.filterMap_cons]
      | some p =>
        rcases hm : muxFn st p with ⟨st2, res⟩
        have harr : arrivedPackets (LoopEvent.packet (some p) sendOk :: rest)
            = p :: arrivedPackets rest := by
          simp [arrivedPackets, List.filterMap_cons]
        rw [harr]
        cases res with
        | error u =>
          simp [Session.tcpLoop, hm, deliveredTcp, muxSeq,
            List.filterMap_cons]
        | ok buf =>
          cases sendOk with
          | false =>
            simp [Session.tcpLoop, hm, deliveredTcp, muxSeq,
              List.filterMap_cons]
          | true =>
            have hms : muxSeq muxFn st (p :: arrivedPackets rest)
                = buf :: muxSeq muxFn st2 (arrivedPackets rest) := by
              simp [muxSeq, hm]
            rw [hms]
            cases buf with
            | rtp b =>
              have hd : deliveredTcp
                  (Session.tcpLoop muxFn target st
                    (LoopEvent.packet (some p) true :: rest)).1
                  = (target.rtp_channel, b) ::
                      deliveredTcp (Session.tcpLoop muxFn target st2 rest).1 := by
                simp [Session.tcpLoop, hm, deliveredTcp, List.filterMap_cons]
              rw [hd, List.map_cons]
              exact List.cons_prefix_cons.mpr ⟨rfl, ih st2⟩
            | rtcp b =>
              have hd : deliveredTcp
                  (Session.tcpLoop muxFn target st
                    (LoopEvent.packet (some p) true :: rest)).1
                  = (target.rtcp_channel, b) ::
                      deliveredTcp (Session.tcpLoop muxFn target st2 rest).1 := by
                simp [Session.tcpLoop, hm, deliveredTcp, List.filterMap_cons]
              rw [hd, List.map_cons]
              exact List.cons_prefix_cons.mpr ⟨rfl, ih st2⟩

lemma run_udp_delivered_ordered (muxFn : Nat → Packet → Nat × Except Unit RtpBuf)
    (target : SendOverSocket) (st : Nat) (env : UdpBindEnv)
    (events : List LoopEvent) :
    deliveredUdp (Session.run_udp muxFn target st env events).1
      <+: muxSeq muxFn st (arrivedPackets events) := by
  unfold Session.run_udp
  rcases h1 : env.bind_rtp with u | u
  · simp [deliveredUdp]
  · rcases h2 : env.bind_rtcp with u2 | u2
    · simp [deliveredUdp]
    · exact udpLoop_delivered_ordered muxFn target events st

lemma deliveredUdp_append (l1 l2 : List Ev) :
    deliveredUdp (l1 ++ l2) = deliveredUdp l1 ++ deliveredUdp l2 := by
  simp [deliveredUdp]

lemma deliveredTcp_append (l1 l2 : List Ev) :
    deliveredTcp (l1 ++ l2) = deliveredTcp l1 ++ deliveredTcp l2 := by
  simp [deliveredTcp]

lemma run_deliveredUdp (id : SessionId) (setup : SessionSetup)
    (env : UdpBindEnv) (events : List LoopEvent) :
    deliveredUdp (Session.run id setup env events).1
      = deliveredUdp (Session.loopPhase setup env events).1 := by
  unfold Session.run
  rcases hx : (Session.loopPhase setup env events).2.2 with _ | _
  · simp [hx]
  · simp [hx]
    rw [deliveredUdp_append]
    have h0 : deliveredUdp
        [Ev.finishCall (setup.rtp_muxer.finishFn
            (Session.loopPhase setup env events).2.1),
         Ev.stateSent (SessionState.stopped id)] = [] := rfl
    rw [h0, List.append_nil]

lemma run_deliveredTcp (id : SessionId) (setup : SessionSetup)
    (env : UdpBindEnv) (events : List LoopEvent) :
    deliveredTcp (Session.run id setup env events).1
      = deliveredTcp (Session.loopPhase setup env events).1 := by
  unfold Session.run
  rcases hx : (Session.loopPhase setup env events).2.2 with _ | _
  · simp [hx]
  · simp [hx]
    rw [deliveredTcp_append]
    have h0 : deliveredTcp
        [Ev.finishCall (setup.rtp_muxer.finishFn
            (Session.loopPhase setup env events).2.1),
         Ev.stateSent (SessionState.stopped id)] = [] := rfl
    rw [h0, List.append_nil]

/-- Claim C5: on every exit from the packet-relay phase, `Session::run`
calls the muxer drain exactly once and throws its output away.  Stated
as: what the destination observes is independent of the `finish` drain
function, and a completed task body's trace is a relay trace free of
drain events followed by exactly one drain call and the stop report, so
no drain output is ever delivered. -/
theorem C5_drain_once_and_discarded (id : SessionId) (st0 : Nat)
    (muxFn : Nat → Packet → Nat × Except Unit RtpBuf)
    (f1 f2 : Nat → List RtpBuf) (tgt : SessionSetupTarget)
    (env : UdpBindEnv) (events : List LoopEvent) :
    deliveredEvents (Session.run id ⟨⟨st0, muxFn, f1⟩, tgt⟩ env events).1
      = deliveredEvents (Session.run id ⟨⟨st0, muxFn, f2⟩, tgt⟩ env events).1 ∧
    ((Session.run id ⟨⟨st0, muxFn, f1⟩, tgt⟩ env events).2 = true →
      ∃ t out,
        (Session.run id ⟨⟨st0, muxFn, f1⟩, tgt⟩ env events).1
          = t ++ [Ev.finishCall out, Ev.stateSent (SessionState.stopped id)] ∧
        t.filter Ev.isFinishCall = []) := by
  have hsame : Session.loopPhase ⟨⟨st0, muxFn, f2⟩, tgt⟩ env events
      = Session.loopPhase ⟨⟨st0, muxFn, f1⟩, tgt⟩ env events := by
    cases tgt <;> rfl
  have hfil : (Session.loopPhase ⟨⟨st0, muxFn, f1⟩, tgt⟩ env events).1.filter
      Ev.isFinishCall = [] :=
    loopPhase_filter_finish ⟨⟨st0, muxFn, f1⟩, tgt⟩ env events
  unfold Session.run
  rw [hsame]
  rcases hx : (Session.loopPhase ⟨⟨st0, muxFn, f1⟩, tgt⟩ env events).2.2 with _ | _
  · simp [hx]
  · refine ⟨?_, ?_⟩
    · simp [hx, deliveredEvents, List.filter_append, Ev.isDeliver]
    · intro hc
      refine ⟨(Session.loopPhase ⟨⟨st0, muxFn, f1⟩, tgt⟩ env events).1,
        f1 (Session.loopPhase ⟨⟨st0, muxFn, f1⟩, tgt⟩ env events).2.1, ?_, hfil⟩
      simp [hx]

/-- Concrete check of C5: a completed UDP run splits into a drain-free
relay trace, the single drain call, and the stop report. -/
theorem C5_witness :
    ∃ t out,
      (Session.run wId ⟨⟨0, wMux.muxFn, wFinA⟩,
          SessionSetupTarget.rtpUdp wUdpTarget⟩ wEnvOk wEvents).1
        = t ++ [Ev.finishCall out, Ev.stateSent (SessionState.stopped wId)] ∧
      t.filter Ev.isFinishCall = [] :=
  (C5_drain_once_and_discarded wId 0 wMux.muxFn wFinA wFinB
    (SessionSetupTarget.rtpUdp wUdpTarget) wEnvOk wEvents).2 (by decide)

/-- Claim C8: within one session, the buffers the destination observes
are exactly the in-order muxings of an initial segment of the packets the
source delegate yielded: no reordering and no batching, for the UDP
delivery (whatever the data/control split of the buffers) and for the
interleaved TCP delivery alike. -/
theorem C8_delivered_in_arrival_order (id : SessionId) (muxr : RtpMuxer)
    (utarget : SendOverSocket) (ttarget : SendInterleaved)
    (env : UdpBindEnv) (events : List LoopEvent) :
    deliveredUdp (Session.run id ⟨muxr, SessionSetupTarget.rtpUdp utarget⟩
        env events).1
      <+: muxSeq muxr.muxFn muxr.st (arrivedPackets events) ∧
    deliveredTcp (Session.run id ⟨muxr, SessionSetupTarget.rtpTcp ttarget⟩
        env events).1
      <+: (muxSeq muxr.muxFn muxr.st (arrivedPackets events)).map
            (tcpMsgOf ttarget) := by
  constructor
  · rw [run_deliveredUdp]
    exact run_udp_delivered_ordered muxr.muxFn utarget muxr.st env events
  · rw [run_deliveredTcp]
    exact tcpLoop_delivered_ordered muxr.muxFn ttarget events muxr.st

lemma udpLoop_send_dispatch (muxFn : Nat → Packet → Nat × Except Unit RtpBuf)
    (target : SendOverSocket) :
    ∀ (events : List LoopEvent) (st : Nat) (s : Sock) (a : Addr)
      (b : RtpBuf) (ok : Bool),
      Ev.sendUdp s a b ok ∈ (Session.udpLoop muxFn target st events).1 →
      s = Sock.rtpSock ∧ a = udpAddrOf target b := by
  intro events
  induction events with
  | nil => intro st s a b ok h; simp [Session.udpLoop] at h
  | cons ev rest ih =>
    intro st s a b ok h
    cases ev with
    | stop => simp [Session.udpLoop] at h
    | packet p sendOk =>
      cases p with
      | none => simp [Session.udpLoop] at h
      | some p =>
        rcases hm : muxFn st p with ⟨st2, res⟩
        cases res with
        | error u => simp [Session.udpLoop, hm] at h
        | ok buf =>
          cases buf with
          | rtp bb =>
            cases sendOk with
            | false =>
              simp [Session.udpLoop, hm] at h
              obtain ⟨hs, ha, hb, _⟩ := h
              subst hs; subst ha; subst hb
              exact ⟨rfl, rfl⟩
            | true =>
              simp [Session.udpLoop, hm] at h
              rcases h with ⟨hs, ha, hb, _⟩ | h
              · subst hs; subst ha; subst hb
                exact ⟨rfl, rfl⟩
              · exact ih st2 s a b ok h
          | rtcp bb =>
            cases sendOk with
            | false =>
              simp [Session.udpLoop, hm] at h
              obtain ⟨hs, ha, hb, _⟩ := h
              subst hs; subst ha; subst hb
              exact ⟨rfl, rfl⟩
            | true =>
              simp [Session.udpLoop, hm] at h
              rcases h with ⟨hs, ha, hb, _⟩ | h
              · subst hs; subst ha; subst hb
                exact ⟨rfl, rfl⟩
              · exact ih st2 s a b ok h

/-- Claim C9: for a UDP-destination session, every datagram send in the
trace goes through the locally-bound data socket (`socket_rtp`) — the
second, control, socket is never used for sending — and is addressed by
buffer kind: RTP data buffers to the remote data address, RTCP control
buffers to the remote control address. -/
theorem C9_udp_dispatch_by_kind (muxFn : Nat → Packet → Nat × Except Unit RtpBuf)
    (target : SendOverSocket) (st : Nat) (env : UdpBindEnv)
    (events : List LoopEvent) :
    ∀ (s : Sock) (a : Addr) (b : RtpBuf) (ok : Bool),
      Ev.sendUdp s a b ok ∈ (Session.run_udp muxFn target st env events).1 →
      s = Sock.rtpSock ∧ a = udpAddrOf target b := by
  intro s a b ok h
  unfold Session.run_udp at h
  rcases h1 : env.bind_rtp with u | u <;> rw [h1] at h
  · simp at h
  · rcases h2 : env.bind_rtcp with u2 | u2 <;> rw [h2] at h
    · simp at h
    · exact udpLoop_send_dispatch muxFn target events st s a b ok h

/-- Concrete check of C9: on a run that sends one data and one control
buffer, both observed sends use the data socket and the matching remote
address. -/
theorem C9_witness :
    (Ev.sendUdp Sock.rtpSock 10 (RtpBuf.rtp 2) true ∈
        (Session.run_udp wMux.muxFn wUdpTarget wMux.st wEnvOk wEvents).1 ∧
     Sock.rtpSock = Sock.rtpSock ∧
     (10 : Addr) = udpAddrOf wUdpTarget (RtpBuf.rtp 2)) ∧
    (Ev.sendUdp Sock.rtpSock 20 (RtpBuf.rtcp 3) true ∈
        (Session.run_udp wMux.muxFn wUdpTarget wMux.st wEnvOk wEvents).1 ∧
     Sock.rtpSock = Sock.rtpSock ∧
     (20 : Addr) = udpAddrOf wUdpTarget (RtpBuf.rtcp 3)) :=
  ⟨⟨by decide,
    C9_udp_dispatch_by_kind wMux.muxFn wUdpTarget wMux.st wEnvOk wEvents
      Sock.rtpSock 10 (RtpBuf.rtp 2) true (by decide)⟩,
   ⟨by decide,
    C9_udp_dispatch_by_kind wMux.muxFn wUdpTarget wMux.st wEnvOk wEvents
      Sock.rtpSock 20 (RtpBuf.rtcp 3) true (by decide)⟩⟩

/-- Concrete check of C4: with the first bind failing on a schedule that
would have delivered packets, the `run_udp` trace is empty. -/
theorem C4_witness :
    (wEnvFail.bind_rtp = Except.error () ∨
     wEnvFail.bind_rtcp = Except.error ()) ∧
    (Session.run_udp wMux.muxFn wUdpTarget wMux.st wEnvFail wEvents).1 = [] ∧
    Ev.recvCall ∉ (Session.run_udp wMux.muxFn wUdpTarget wMux.st wEnvFail
        wEvents).1 :=
  ⟨Or.inl rfl,
   (C4_bind_failure_never_recv wMux.muxFn wUdpTarget wMux.st wEnvFail wEvents
     (Or.inl rfl)).1,
   (C4_bind_failure_never_recv wMux.muxFn wUdpTarget wMux.st wEnvFail wEvents
     (Or.inl rfl)).2.1⟩

/-! Helper lemmas about the registry association list. -/

lemma updateSession_keys (sid : SessionId) (f : Session → Session) :
    ∀ m : List (SessionId × Session),
      (updateSession m sid f).map Prod.fst = m.map Prod.fst := by
  intro m
  induction m with
  | nil => rfl
  | cons kv rest ih =>
    rcases kv with ⟨k, v⟩
    by_cases hk : k = sid
    · simp [updateSession, hk]
    · simp [updateSession, hk, ih]

lemma lookup_updateSession_self (sid : SessionId) (f : Session → Session) :
    ∀ (m : List (SessionId × Session)) (s : Session),
      lookupSession m sid = some s →
      lookupSession (updateSession m sid f) sid = some (f s) := by
  intro m
  induction m with
  | nil => intro s h; simp [lookupSession] at h
  | cons kv rest ih =>
    rcases kv with ⟨k, v⟩
    intro s h
    by_cases hk : k = sid
    · simp [lookupSession, hk] at h
      simp [updateSession, lookupSession, hk, h]
    · simp [lookupSession, hk] at h
      simp [updateSession, lookupSession, hk, ih s h]

lemma lookup_updateSession_other (sid : SessionId) (f : Session → Session)
    (other : SessionId) (hne : other ≠ sid) :
    ∀ m : List (SessionId × Session),
      lookupSession (updateSession m sid f) other = lookupSession m other := by
  intro m
  induction m with
  | nil => rfl
  | cons kv rest ih =>
    rcases kv with ⟨k, v⟩
    by_cases hk : k = sid
    · subst hk
      simp [updateSession, lookupSession, Ne.symm hne]
    · simp [updateSession, lookupSession, hk, ih]

/-- Claim C3: `SessionManager::setup_and_start` claims the freshly
generated id with an occupancy check.  If the id is occupied the caller
gets `AlreadyRegistered`, no session is constructed or started, and the
whole manager state — including the session already stored under that id
— is unchanged; if it is vacant, the new session is started, stored under
the id, the id is returned, and no other entry is touched. -/
theorem C3_occupancy_check (m : SessionManager) (genId : SessionId)
    (ns : Session) :
    (∀ s, lookupSession m.sessions genId = some s →
      m.setup_and_start genId ns
        = (m, Except.error RegisterSessionError.alreadyRegistered, [])) ∧
    (lookupSession m.sessions genId = none →
      (m.setup_and_start genId ns).2.1 = Except.ok genId ∧
      lookupSession (m.setup_and_start genId ns).1.sessions genId = some ns ∧
      (m.setup_and_start genId ns).2.2 = [MgrEv.sessionStarted genId] ∧
      (m.setup_and_start genId ns).1.worker = m.worker ∧
      ∀ other, other ≠ genId →
        lookupSession (m.setup_and_start genId ns).1.sessions other
          = lookupSession m.sessions other) := by
  constructor
  · intro s hs
    unfold SessionManager.setup_and_start
    rw [hs]
  · intro hn
    unfold SessionManager.setup_and_start
    rw [hn]
    refine ⟨rfl, by simp [lookupSession], rfl, rfl, ?_⟩
    intro other hne
    simp [lookupSession, Ne.symm hne]

/-- Concrete check of C3: a second registration under an occupied id is
rejected leaving the manager intact, while a vacant id accepts. -/
theorem C3_witness :
    (lookupSession wMgr.sessions wId = some wSess1 ∧
     wMgr.setup_and_start wId wSess2
       = (wMgr, Except.error RegisterSessionError.alreadyRegistered, [])) ∧
    (lookupSession wMgr.sessions wIdB = none ∧
     (wMgr.setup_and_start wIdB wSess2).2.1 = Except.ok wIdB ∧
     lookupSession (wMgr.setup_and_start wIdB wSess2).1.sessions wIdB
       = some wSess2) :=
  ⟨⟨by decide, (C3_occupancy_check wMgr wId wSess2).1 wSess1 (by decide)⟩,
   ⟨by decide,
    ((C3_occupancy_check wMgr wIdB wSess2).2 (by decide)).1,
    ((C3_occupancy_check wMgr wIdB wSess2).2 (by decide)).2.1⟩⟩

/-- Claim C6: `SessionManager::stop` stops the reaper worker first, then
drains the entire registry, tearing down every remaining session
sequentially: afterwards the registry is empty, and for every previously
registered session a teardown — whose resulting task has exited — appears
in the effect trace after the reaper stop. -/
theorem C6_stop_drains_registry (m : SessionManager) :
    (m.stop).1.sessions = [] ∧
    (m.stop).1.worker.exited = true ∧
    (m.stop).2.head? = some MgrEv.reaperStopped ∧
    ∀ p ∈ m.sessions,
      MgrEv.sessionTorn p.1 (Session.teardown p.2) ∈ (m.stop).2 ∧
      (Session.teardown p.2).worker.exited = true := by
  refine ⟨rfl, rfl, rfl, ?_⟩
  intro p hp
  refine ⟨?_, rfl⟩
  unfold SessionManager.stop
  exact List.mem_cons_of_mem _
    (List.mem_map_of_mem (fun q => MgrEv.sessionTorn q.1 (Session.teardown q.2)) hp)

/-- Concrete check of C6 on a manager holding one session. -/
theorem C6_witness :
    (wMgr.stop).1.sessions = [] ∧
    MgrEv.sessionTorn wId (Session.teardown wSess1) ∈ (wMgr.stop).2 ∧
    (Session.teardown wSess1).worker.exited = true :=
  ⟨(C6_stop_drains_registry wMgr).1,
   ((C6_stop_drains_registry wMgr).2.2.2 (wId, wSess1) (by decide)).1,
   ((C6_stop_drains_registry wMgr).2.2.2 (wId, wSess1) (by decide)).2⟩

/-- Claim C7: `SessionManager::teardown(id)` tears the session down in
place when present — the entry stays in the registry (holding the torn
session), the key set is unchanged, other entries are untouched — and is
a silent no-op leaving the whole state unchanged when the id is absent. -/
theorem C7_teardown_in_place (m : SessionManager) (sid : SessionId) :
    (m.teardown sid).1.sessions.map Prod.fst = m.sessions.map Prod.fst ∧
    (lookupSession m.sessions sid = none → m.teardown sid = (m, [])) ∧
    (∀ s, lookupSession m.sessions sid = some s →
      lookupSession (m.teardown sid).1.sessions sid
        = some (Session.teardown s) ∧
      (m.teardown sid).2 = [MgrEv.sessionTorn sid (Session.teardown s)] ∧
      (m.teardown sid).1.worker = m.worker ∧
      ∀ other, other ≠ sid →
        lookupSession (m.teardown sid).1.sessions other
          = lookupSession m.sessions other) := by
  refine ⟨?_, ?_, ?_⟩
  · unfold SessionManager.teardown
    rcases hl : lookupSession m.sessions sid with _ | s
    · rfl
    · simp [updateSession_keys]
  · intro hn
    unfold SessionManager.teardown
    rw [hn]
  · intro s hs
    unfold SessionManager.teardown
    rw [hs]
    refine ⟨lookup_updateSession_self sid Session.teardown m.sessions s hs,
      rfl, rfl, ?_⟩
    intro other hne
    exact lookup_updateSession_other sid Session.teardown other hne m.sessions

/-- Concrete check of C7: tearing down a present id keeps its entry (now
torn); tearing down an absent id changes nothing. -/
theorem C7_witness :
    (lookupSession wMgr.sessions wId = some wSess1 ∧
     lookupSession (wMgr.teardown wId).1.sessions wId
       = some (Session.teardown wSess1)) ∧
    (lookupSession wMgr.sessions wIdB = none ∧
     wMgr.teardown wIdB = (wMgr, [])) :=
  ⟨⟨by decide,
    (((C7_teardown_in_place wMgr wId).2.2) wSess1 (by decide)).1⟩,
   ⟨by decide, (C7_teardown_in_place wMgr wIdB).2.1 (by decide)⟩⟩

/-- Claim C10: `SessionManager::setup_and_start` returns `Ok(id)` and
leaves the id in the registry even when the session's transport startup
subsequently fails (a UDP bind error): `AlreadyRegistered` is the only
value the error type can take, the startup failure never reaches the
caller, the failed session still emits its own `Stopped` report, and the
reaper's handling of that report is what removes the stale entry —
restoring exactly the registry from before the registration. -/
theorem C10_startup_failure_not_surfaced (m : SessionManager)
    (genId : SessionId) (ns : Session) (muxr : RtpMuxer)
    (target : SendOverSocket) (env : UdpBindEnv) (events : List LoopEvent)
    (hvac : lookupSession m.sessions genId = none)
    (hbind : env.bind_rtp = Except.error () ∨
             env.bind_rtcp = Except.error ()) :
    (∀ e : RegisterSessionError, e = RegisterSessionError.alreadyRegistered) ∧
    (m.setup_and_start genId ns).2.1 = Except.ok genId ∧
    lookupSession (m.setup_and_start genId ns).1.sessions genId = some ns ∧
    (Session.run genId ⟨muxr, SessionSetupTarget.rtpUdp target⟩ env
        events).1.filter Ev.isStateSent
      = [Ev.stateSent (SessionState.stopped genId)] ∧
    SessionManager.handleSessionState (m.setup_and_start genId ns).1.sessions
        (SessionState.stopped genId) = m.sessions := by
  refine ⟨fun e => by cases e; rfl, ?_, ?_, ?_, ?_⟩
  · unfold SessionManager.setup_and_start
    rw [hvac]
  · unfold SessionManager.setup_and_start
    rw [hvac]
    simp [lookupSession]
  · rw [run_bind_failure genId muxr target env events hbind]
    rfl
  · unfold SessionManager.setup_and_start
    rw [hvac]
    simp [SessionManager.handleSessionState, removeSession]

/-- Concrete check of C10: registering a fresh id whose session then hits
a bind failure — the caller gets `Ok`, the entry is present, the failed
session reports `Stopped`, and the reaper step removes the entry. -/
theorem C10_witness :
    lookupSession wMgr.sessions wIdB = none ∧
    (wMgr.setup_and_start wIdB wSess2).2.1 = Except.ok wIdB ∧
    lookupSession (wMgr.setup_and_start wIdB wSess2).1.sessions wIdB
      = some wSess2 ∧
    (Session.run wIdB ⟨wMux, SessionSetupTarget.rtpUdp wUdpTarget⟩ wEnvFail
        wEvents).1.filter Ev.isStateSent
      = [Ev.stateSent (SessionState.stopped wIdB)] ∧
    SessionManager.handleSessionState
        (wMgr.setup_and_start wIdB wSess2).1.sessions
        (SessionState.stopped wIdB) = wMgr.sessions :=
  ⟨by decide,
   (C10_startup_failure_not_surfaced wMgr wIdB wSess2 wMux wUdpTarget
     wEnvFail wEvents (by decide) (Or.inl rfl)).2.1,
   (C10_startup_failure_not_surfaced wMgr wIdB wSess2 wMux wUdpTarget
     wEnvFail wEvents (by decide) (Or.inl rfl)).2.2.1,
   (C10_startup_failure_not_surfaced wMgr wIdB wSess2 wMux wUdpTarget
     wEnvFail wEvents (by decide) (Or.inl rfl)).2.2.2.1,
   (C10_startup_failure_not_surfaced wMgr wIdB wSess2 wMux wUdpTarget
     wEnvFail wEvents (by decide) (Or.inl rfl)).2.2.2.2⟩

end Oddity
